import Mathlib

/-!
Verification of the balance-gated request fulfillment engine of a Telegram
AI-assistant bot (source files `bot.py`, `database.py`, `config.py`).

The embedding models the single-user slice of the SQLite `users` table
(`balance`, `total_requests`) as `Option UserRow` (one row keyed by the
requesting user's `tg_id`; `none` means no row yet).  The ledger operations
`update_balance`, `create_user`, `get_or_create_user`,
`ensure_sufficient_balance` are translated from `database.py`; the gateway
`generate_response` from `OpenAIService.generate_response` in `bot.py`
(including its exception dispatch order); the orchestrator
`handle_text_message` from `MessageHandler.handle_text_message` in `bot.py`.

External effects (the OpenAI call, SQLite faults, and concurrent ledger
activity by other requests between the balance check and the debit) are
supplied by an `EnvOracle`.  The orchestrator result records the final row
state, the terminal outcome (one constructor per distinct user-visible
message path, plus `uncaught` for an exception escaping the handler), and
how many times each collaborator was invoked.
-/

namespace TelegramGPT

/-- One row of the `users` table, restricted to the metered fields
(`balance INTEGER DEFAULT 3`, `total_requests INTEGER DEFAULT 0`). -/
structure UserRow where
  balance : Int
  total_requests : Int
  deriving DecidableEq, Repr

/-- The single-user slice of the `users` table: `none` = no row for this
`tg_id` yet. -/
abbrev Db := Option UserRow

/-- `config.bot.default_free_requests` from `config.py` (`BotConfig`). -/
def default_free_requests : Int := 3

/-- `database.DatabaseError`. -/
structure DatabaseError where
  msg : String
  deriving DecidableEq, Repr

/-- Python `str.strip()` with no argument: remove leading and trailing
whitespace characters. -/
def py_strip (s : String) : String :=
  ⟨((s.data.dropWhile Char.isWhitespace).reverse.dropWhile Char.isWhitespace).reverse⟩

/-- `UserRepository.get_user`: `SELECT * FROM users WHERE tg_id = ?`. -/
def get_user (db : Db) : Option UserRow := db

/-- The `INSERT OR IGNORE INTO users ... VALUES (..., default_free_requests)`
statement of `UserRepository.create_user`: inserts the row with the
configured starting balance (and the schema default `total_requests = 0`)
only when no row with this `tg_id` exists. -/
def insert_or_ignore (db : Db) : Db :=
  match db with
  | some u => some u
  | none => some ⟨default_free_requests, 0⟩

/-- `UserRepository.create_user`: `INSERT OR IGNORE` then `SELECT`; raises
`DatabaseError` when the subsequent read finds no row. -/
def create_user (db : Db) : Except DatabaseError (UserRow × Db) :=
  match insert_or_ignore db with
  | some u => .ok (u, some u)
  | none => .error ⟨"Failed to create user"⟩

/-- `UserRepository.update_balance`: the conditional atomic update
`UPDATE users SET balance = balance + delta,
total_requests = total_requests + ABS(delta < 0 ? -delta : 0)
WHERE tg_id = ? AND balance + delta >= 0`, returning `rowcount > 0`.
No matching row (absent user, or a result that would be negative) leaves
the table unchanged and returns `false`. -/
def update_balance (db : Db) (delta : Int) : Bool × Db :=
  match db with
  | none => (false, none)
  | some u =>
    if 0 ≤ u.balance + delta then
      (true, some ⟨u.balance + delta, u.total_requests + (if delta < 0 then -delta else 0)⟩)
    else
      (false, some u)

/-- `DatabaseManager.ensure_sufficient_balance`: `update_balance(tg_id, -cost)`
(the call site in `bot.py` uses the default `cost = 1`). -/
def ensure_sufficient_balance (db : Db) (cost : Int) : Bool × Db :=
  update_balance db (-cost)

/-- `DatabaseManager.get_or_create_user`: read the row, return it when
present, otherwise run `create_user`. -/
def get_or_create_user (db : Db) : Except DatabaseError (UserRow × Db) :=
  match get_user db with
  | some u => .ok (u, db)
  | none => create_user db

/-- `bot.OpenAIError` (the application-level exception class of `bot.py`,
distinct from the `openai.error.OpenAIError` library class). -/
structure OpenAIError where
  msg : String
  deriving DecidableEq, Repr

/-- One element of `response.choices` of the provider, reduced to the
`message.content` field read by the code. -/
structure Choice where
  content : String
  deriving DecidableEq, Repr

/-- The provider response object: the `choices` list. -/
structure ProviderResponse where
  choices : List Choice
  deriving DecidableEq, Repr

/-- The exception classes the provider call can raise, as distinguished by
the `except` clauses of `OpenAIService.generate_response`:
`openai.error.AuthenticationError`, `openai.error.RateLimitError`, other
`openai.error.OpenAIError`, any other exception. -/
inductive ProviderError
  | authentication
  | rateLimit
  | apiError
  | unexpected
  deriving DecidableEq, Repr

/-- Exceptions that can leave the `try` body of
`OpenAIService.generate_response`: an exception from the provider call, or
the application-level `OpenAIError` the body itself raises (the
empty-response case). -/
inductive RawException
  | fromProvider (e : ProviderError)
  | appError (msg : String)
  deriving DecidableEq, Repr

/-- The `try` body of `OpenAIService.generate_response`: call the provider;
on a response with no `choices`, raise
`OpenAIError("Empty response from OpenAI")`; otherwise return
`choices[0].message.content.strip()`. -/
def try_body (provider : Except ProviderError ProviderResponse) : Except RawException String :=
  match provider with
  | .error e => .error (.fromProvider e)
  | .ok resp =>
    match resp.choices with
    | [] => .error (.appError ("Empty response from OpenAI"))
    | c :: _ => .ok (py_strip c.content)

/-- `OpenAIService.generate_response`: the `try` body followed by the
`except` dispatch, in source order.  The application-level `OpenAIError`
raised for an empty response is not an `openai.error.OpenAIError`, so it
falls through the three provider-specific clauses to the final
`except Exception` clause, which re-raises
`OpenAIError("Internal service error")`. -/
def generate_response (provider : Except ProviderError ProviderResponse) : Except OpenAIError String :=
  match try_body provider with
  | .ok s => .ok s
  | .error (.fromProvider .authentication) => .error ⟨"Invalid API key configuration"⟩
  | .error (.fromProvider .rateLimit) => .error ⟨"Service temporarily unavailable due to high load"⟩
  | .error (.fromProvider .apiError) => .error ⟨"AI service is currently unavailable"⟩
  | .error (.fromProvider .unexpected) => .error ⟨"Internal service error"⟩
  | .error (.appError _) => .error ⟨"Internal service error"⟩

instance : DecidableEq (Except OpenAIError String) := fun a b =>
  match a, b with
  | .error x, .error y =>
    if h : x = y then .isTrue (congrArg Except.error h)
    else .isFalse (fun hc => h (Except.error.inj hc))
  | .ok x, .ok y =>
    if h : x = y then .isTrue (congrArg Except.ok h)
    else .isFalse (fun hc => h (Except.ok.inj hc))
  | .error _, .ok _ => .isFalse (fun hc => Except.noConfusion hc)
  | .ok _, .error _ => .isFalse (fun hc => Except.noConfusion hc)

/-- The terminal outcome of `MessageHandler.handle_text_message`, one
constructor per distinct user-visible message path of the source, plus
`uncaught` for an exception that escapes the handler. -/
inductive Outcome
  | emptyMessage
  | insufficientBalance (balance : Int)
  | fulfilled (text : String) (remaining : Int)
  | gatewayFailure (msg : String)
  | systemFailure
  | uncaught (msg : String)
  deriving DecidableEq, Repr

/-- The message text the handler sends (or edits in) for each terminal
outcome, from the literals of `bot.py`.  An `uncaught` outcome sends
nothing: the exception propagates. -/
def render_outcome : Outcome → String
  | .emptyMessage => "❌ Сообщение не может быть пустым."
  | .insufficientBalance b =>
      "❌ Недостаточно запросов. Баланс: " ++ toString b ++
        "\n\n💡 Пополните баланс: /buy\n🎁 Или используйте промокод: /promo"
  | .fulfilled r remaining => r ++ "\n\n💫 Осталось запросов: " ++ toString remaining
  | .gatewayFailure m => "❌ " ++ m
  | .systemFailure => "❌ Ошибка обработки запроса. Попробуйте позже."
  | .uncaught m => m

/-- External effects of one request: the gateway result (what
`generate_response` returns or raises), whether SQLite faults with a
`DatabaseError` during `get_or_create_user` or during the debit update, and
the concurrent ledger activity of other in-flight requests, applied between
the balance check and the debit (the race window of the flow). -/
structure EnvOracle where
  gwResult : Except OpenAIError String
  getOrCreateFault : Bool
  debitFault : Bool
  interfere : Db → Db

/-- Result of one `handle_text_message` run: final row state, terminal
outcome, and how many times each collaborator was invoked. -/
structure HandlerResult where
  db : Db
  outcome : Outcome
  getOrCreateCalls : Nat
  gatewayCalls : Nat
  debitCalls : Nat
  deriving DecidableEq, Repr

/-- `MessageHandler.handle_text_message` from `bot.py`:

1. `user_text = message.text.strip()`; when empty, send the empty-message
   warning and return (nothing else runs).
2. `get_or_create_user(user_id)`.  A `DatabaseError` here is caught by the
   `except DatabaseError` clause, but that clause calls
   `edit_message_text(..., message_id=processing_msg.message_id)` and
   `processing_msg` is only assigned later, so an `UnboundLocalError`
   escapes the handler.
3. On `balance <= 0`, send the balance warning and return.
4. Send the processing message (binding `processing_msg`), call the
   gateway; an `OpenAIError` is caught and edited in as `"❌ " + str(e)`.
5. `ensure_sufficient_balance(user_id)` (cost 1).  A SQLite fault rolls the
   update back and the raised `DatabaseError`, like the explicit
   `raise DatabaseError("Failed to deduct balance")` on a `false` return,
   is caught and edited in as the generic processing-error message.
6. On a `true` return, edit in the response with
   `user['balance'] - 1` (the balance fetched in step 2, minus one) as the
   remaining-request count. -/
def handle_text_message (text : String) (db : Db) (env : EnvOracle) : HandlerResult :=
  let user_text := py_strip text
  if user_text = "" then
    ⟨db, .emptyMessage, 0, 0, 0⟩
  else if env.getOrCreateFault then
    ⟨db, .uncaught ("UnboundLocalError: processing_msg"), 1, 0, 0⟩
  else
    match get_or_create_user db with
    | .error _ => ⟨db, .uncaught ("UnboundLocalError: processing_msg"), 1, 0, 0⟩
    | .ok (user, db1) =>
      if user.balance ≤ 0 then
        ⟨db1, .insufficientBalance user.balance, 1, 0, 0⟩
      else
        match env.gwResult with
        | .error e => ⟨db1, .gatewayFailure e.msg, 1, 1, 0⟩
        | .ok response =>
          let db2 := env.interfere db1
          if env.debitFault then
            ⟨db2, .systemFailure, 1, 1, 1⟩
          else
            let r := ensure_sufficient_balance db2 1
            if r.1 then
              ⟨r.2, .fulfilled response (user.balance - 1), 1, 1, 1⟩
            else
              ⟨r.2, .systemFailure, 1, 1, 1⟩

/-- A sequence of ledger adjustments, each applied through
`update_balance` (the sole mutation path for `balance`). -/
def apply_updates (db : Db) (deltas : List Int) : Db :=
  deltas.foldl (fun d delta => (update_balance d delta).2) db

/-- Non-negativity of the stored balance (vacuous when no row exists). -/
def db_nonneg : Db → Prop
  | none => True
  | some u => 0 ≤ u.balance

instance : DecidablePred db_nonneg := fun db =>
  match db with
  | none => inferInstanceAs (Decidable True)
  | some u => inferInstanceAs (Decidable (0 ≤ u.balance))

/-- Interleaved steps of two concurrent `create_user` calls A and B for the
same never-seen `tg_id`: each call performs its `INSERT OR IGNORE`
(`insA`/`insB`) and then its `SELECT` (`selA`/`selB`). -/
inductive RaceOp
  | insA
  | insB
  | selA
  | selB
  deriving DecidableEq, Repr

/-- State of the duplicate-insert race: the table slice and what each
call's `SELECT` returned (if it has run). -/
structure RaceState where
  db : Db
  resA : Option UserRow
  resB : Option UserRow
  deriving DecidableEq, Repr

/-- One step of the duplicate-insert race. -/
def race_step (s : RaceState) (op : RaceOp) : RaceState :=
  match op with
  | .insA => ⟨insert_or_ignore s.db, s.resA, s.resB⟩
  | .insB => ⟨insert_or_ignore s.db, s.resA, s.resB⟩
  | .selA => ⟨s.db, get_user s.db, s.resB⟩
  | .selB => ⟨s.db, s.resA, get_user s.db⟩

/-- Run a schedule of race steps against an initially absent row. -/
def run_race (ops : List RaceOp) : RaceState :=
  ops.foldl race_step ⟨none, none, none⟩

/-- All interleavings of the two calls' steps in which each call's
`INSERT OR IGNORE` precedes its own `SELECT`. -/
def race_interleavings : List (List RaceOp) :=
  [[.insA, .selA, .insB, .selB],
   [.insA, .insB, .selA, .selB],
   [.insA, .insB, .selB, .selA],
   [.insB, .insA, .selA, .selB],
   [.insB, .insA, .selB, .selA],
   [.insB, .selB, .insA, .selA]]

/-- A failed `update_balance` leaves the table unchanged. -/
theorem update_balance_false_frame (db : Db) (delta : Int)
    (h : (update_balance db delta).1 = false) : (update_balance db delta).2 = db := by
  match db with
  | none => rfl
  | some u =>
    by_cases hc : 0 ≤ u.balance + delta
    · simp [update_balance, hc] at h
    · simp [update_balance, hc]

/-- One `update_balance` step preserves non-negativity of the balance. -/
theorem update_balance_nonneg (db : Db) (delta : Int) (h : db_nonneg db) :
    db_nonneg (update_balance db delta).2 := by
  match db with
  | none => exact h
  | some u =>
    by_cases hc : 0 ≤ u.balance + delta
    · simp only [update_balance, if_pos hc]
      exact hc
    · simp only [update_balance, if_neg hc]
      exact h

/-- C2: for every sequence of adjustments applied through `update_balance`
from a non-negative starting balance, the stored balance never goes below
0, and a debit whose result would be negative is rejected atomically with
no change to `balance` or `total_requests`. -/
theorem balance_never_negative (db : Db) (deltas : List Int) (hdb : db_nonneg db) :
    db_nonneg (apply_updates db deltas) ∧
      ∀ (u : UserRow) (delta : Int), 0 ≤ u.balance → u.balance + delta < 0 →
        update_balance (some u) delta = (false, some u) := by
  constructor
  · induction deltas generalizing db with
    | nil => exact hdb
    | cons d ds ih => exact ih ((update_balance db d).2) (update_balance_nonneg db d hdb)
  · intro u delta _ hneg
    have hc : ¬ 0 ≤ u.balance + delta := by omega
    simp [update_balance, hc]

/-- Witness for C2: three unit debits and one credit from balance 2 keep
the balance non-negative, and a debit of 2 from balance 0 is rejected with
no state change. -/
theorem balance_never_negative_check :
    db_nonneg (apply_updates (some ⟨2, 0⟩) [-1, -1, -1, 5]) ∧
      update_balance (some ⟨0, 7⟩) (-2) = (false, some ⟨0, 7⟩) := by
  have h := balance_never_negative (some ⟨2, 0⟩) [-1, -1, -1, 5] (by decide)
  exact ⟨h.1, h.2 ⟨0, 7⟩ (-2) (by decide) (by decide)⟩

/-- C3: for an existing user and a positive amount, the debit decrements
`balance` by the amount and increments `total_requests` by the same amount
exactly when the resulting balance is non-negative, returning `true`; it
returns `false` with no state change otherwise. -/
theorem debit_iff_sufficient (u : UserRow) (amount : Int) (hpos : 0 < amount) :
    (0 ≤ u.balance - amount →
        ensure_sufficient_balance (some u) amount =
          (true, some ⟨u.balance - amount, u.total_requests + amount⟩)) ∧
      (u.balance - amount < 0 →
        ensure_sufficient_balance (some u) amount = (false, some u)) := by
  constructor
  · intro h
    have h1 : 0 ≤ u.balance + -amount := by omega
    have h2 : -amount < 0 := by omega
    simp [ensure_sufficient_balance, update_balance, h1, h2]
    omega
  · intro h
    have h1 : ¬ 0 ≤ u.balance + -amount := by omega
    simp [ensure_sufficient_balance, update_balance, h1]

/-- Witness for C3: a unit debit from balance 3 yields balance 2 and
`total_requests` 1; a debit of 2 from balance 0 is rejected unchanged. -/
theorem debit_iff_sufficient_check :
    ensure_sufficient_balance (some ⟨3, 0⟩) 1 = (true, some ⟨2, 1⟩) ∧
      ensure_sufficient_balance (some ⟨0, 5⟩) 2 = (false, some ⟨0, 5⟩) :=
  ⟨(debit_iff_sufficient ⟨3, 0⟩ 1 (by decide)).1 (by decide),
   (debit_iff_sufficient ⟨0, 5⟩ 2 (by decide)).2 (by decide)⟩

/-- C1: when the gateway raises, the handler produces the gateway-failure
outcome, the row (hence the balance) is exactly what it was before the
request, and no debit is attempted (`debitCalls = 0`); the debit call sits
strictly after a successful completion in the flow. -/
theorem gateway_failure_charges_nothing (text : String) (u : UserRow) (e : OpenAIError)
    (env : EnvOracle) (htext : ¬ py_strip text = "") (hfault : env.getOrCreateFault = false)
    (hbal : 0 < u.balance) (hgw : env.gwResult = .error e) :
    handle_text_message text (some u) env = ⟨some u, .gatewayFailure e.msg, 1, 1, 0⟩ := by
  have hble : ¬ u.balance ≤ 0 := by omega
  simp [handle_text_message, htext, hfault, hgw, get_or_create_user, get_user, hble]

/-- Witness for C1, Scenario C: balance 3, rate-limited gateway; outcome is
the gateway failure and the balance remains 3 with no debit call. -/
theorem gateway_failure_charges_nothing_check :
    handle_text_message ("Привет") (some ⟨3, 0⟩)
        ⟨.error ⟨"Service temporarily unavailable due to high load"⟩, false, false, id⟩ =
      ⟨some ⟨3, 0⟩,
        .gatewayFailure ("Service temporarily unavailable due to high load"), 1, 1, 0⟩ :=
  gateway_failure_charges_nothing ("Привет") ⟨3, 0⟩
    ⟨"Service temporarily unavailable due to high load"⟩
    ⟨.error ⟨"Service temporarily unavailable due to high load"⟩, false, false, id⟩
    (by decide) rfl (by decide) rfl

/-- C4: when the resolved account's balance is `<= 0` (including exactly
0), the handler produces the insufficient-balance outcome carrying that
balance, and the gateway is never invoked (`gatewayCalls = 0`). -/
theorem zero_balance_blocks_gateway (text : String) (u : UserRow) (env : EnvOracle)
    (htext : ¬ py_strip text = "") (hfault : env.getOrCreateFault = false)
    (hbal : u.balance ≤ 0) :
    handle_text_message text (some u) env =
      ⟨some u, .insufficientBalance u.balance, 1, 0, 0⟩ := by
  simp [handle_text_message, htext, hfault, get_or_create_user, get_user, hbal]

/-- Witness for C4, Scenario B: balance 0 yields `InsufficientBalance(0)`
with zero gateway calls and zero debit calls. -/
theorem zero_balance_blocks_gateway_check :
    handle_text_message ("Вопрос") (some ⟨0, 4⟩) ⟨.ok ("x"), false, false, id⟩ =
      ⟨some ⟨0, 4⟩, .insufficientBalance 0, 1, 0, 0⟩ :=
  zero_balance_blocks_gateway ("Вопрос") ⟨0, 4⟩ ⟨.ok ("x"), false, false, id⟩
    (by decide) rfl (by decide)

/-- C5 counterexample: balance 3, the gateway returns "hello", and a
concurrent request debits one unit between the balance check and this
request's debit.  The debit still succeeds and the post-debit balance is
1 (row `⟨1, 2⟩`), but the outcome carries 2 — the pre-check balance
fetched at the top of the handler minus 1 — so the fulfilled outcome does
not carry the balance after the debit. -/
theorem fulfilled_carries_stale_balance :
    handle_text_message ("Вопрос") (some ⟨3, 0⟩)
        ⟨.ok ("hello"), false, false, fun d => (update_balance d (-1)).2⟩ =
        ⟨some ⟨1, 2⟩, .fulfilled ("hello") 2, 1, 1, 1⟩ ∧
      Outcome.fulfilled ("hello") 2 ≠ Outcome.fulfilled ("hello") 1 := by
  decide

/-- C5 (amended): when the gateway succeeds and the conditional debit
succeeds — under any concurrent ledger activity in the check-to-debit
window — the handler produces the fulfilled outcome carrying the response
text and the pre-check balance minus 1 (equal to the post-debit balance
exactly when no concurrent activity intervened), and the row is the
post-debit row. -/
theorem success_path_fulfilled_stale (text : String) (u : UserRow) (resp : String)
    (env : EnvOracle) (htext : ¬ py_strip text = "") (hfault : env.getOrCreateFault = false)
    (hdfault : env.debitFault = false) (hgw : env.gwResult = .ok resp)
    (hbal : 0 < u.balance)
    (hsucc : (ensure_sufficient_balance (env.interfere (some u)) 1).1 = true) :
    handle_text_message text (some u) env =
      ⟨(ensure_sufficient_balance (env.interfere (some u)) 1).2,
        .fulfilled resp (u.balance - 1), 1, 1, 1⟩ := by
  have hble : ¬ u.balance ≤ 0 := by omega
  simp [handle_text_message, htext, hfault, hdfault, hgw,
    get_or_create_user, get_user, hble, hsucc]

/-- Witness for C5 (amended), Scenario A: balance 3, gateway returns
"hello", no concurrent activity; outcome is `Fulfilled("hello", 2)` and
the row becomes balance 2, one request. -/
theorem success_path_fulfilled_stale_check :
    handle_text_message ("Вопрос") (some ⟨3, 0⟩) ⟨.ok ("hello"), false, false, id⟩ =
      ⟨some ⟨2, 1⟩, .fulfilled ("hello") 2, 1, 1, 1⟩ :=
  success_path_fulfilled_stale ("Вопрос") ⟨3, 0⟩ ("hello") ⟨.ok ("hello"), false, false, id⟩
    (by decide) rfl rfl rfl (by decide) (by decide)

/-- C6: when the gateway succeeds but the conditional debit returns
`false`, the handler produces the system-failure outcome (rendered as the
transient processing-error message, which contains no response text: the
AI response is discarded), and the failed debit leaves the row as the
concurrent activity left it. -/
theorem debit_failure_discards_response (text : String) (u : UserRow) (resp : String)
    (env : EnvOracle) (htext : ¬ py_strip text = "") (hfault : env.getOrCreateFault = false)
    (hdfault : env.debitFault = false) (hgw : env.gwResult = .ok resp)
    (hbal : 0 < u.balance)
    (hfail : (ensure_sufficient_balance (env.interfere (some u)) 1).1 = false) :
    handle_text_message text (some u) env =
        ⟨env.interfere (some u), .systemFailure, 1, 1, 1⟩ ∧
      render_outcome .systemFailure = "❌ Ошибка обработки запроса. Попробуйте позже." := by
  have hble : ¬ u.balance ≤ 0 := by omega
  have hframe : (ensure_sufficient_balance (env.interfere (some u)) 1).2 =
      env.interfere (some u) :=
    update_balance_false_frame (env.interfere (some u)) (-1) hfail
  refine ⟨?_, rfl⟩
  simp [handle_text_message, htext, hfault, hdfault, hgw,
    get_or_create_user, get_user, hble, hfail, hframe]

/-- Witness for C6, Scenario D: balance 1, gateway succeeds, but a
concurrent request debits the last unit in the race window; outcome is the
system failure, final balance 0 (not -1), and the response is replaced by
the generic processing-error message. -/
theorem debit_failure_discards_response_check :
    handle_text_message ("Вопрос") (some ⟨1, 0⟩)
        ⟨.ok ("hello"), false, false, fun d => (update_balance d (-1)).2⟩ =
        ⟨some ⟨0, 1⟩, .systemFailure, 1, 1, 1⟩ ∧
      render_outcome .systemFailure = "❌ Ошибка обработки запроса. Попробуйте позже." :=
  debit_failure_discards_response ("Вопрос") ⟨1, 0⟩ ("hello")
    ⟨.ok ("hello"), false, false, fun d => (update_balance d (-1)).2⟩
    (by decide) rfl rfl rfl (by decide) (by decide)

/-- C7: `get_or_create_user` returns an existing account unchanged and
never re-initializes its balance; for a never-seen user it creates the
account with the configured starting balance; and every interleaving of
two concurrent duplicate-insert `create_user` calls yields exactly one
account, initialized once (balance 3, not 6), with both calls observing
it. -/
theorem get_or_create_idempotent (u : UserRow) (ops : List RaceOp)
    (hops : ops ∈ race_interleavings) :
    get_or_create_user (some u) = .ok (u, some u) ∧
      get_or_create_user none =
        .ok (⟨default_free_requests, 0⟩, some ⟨default_free_requests, 0⟩) ∧
      run_race ops = ⟨some ⟨default_free_requests, 0⟩, some ⟨default_free_requests, 0⟩,
        some ⟨default_free_requests, 0⟩⟩ := by
  refine ⟨rfl, rfl, ?_⟩
  simp [race_interleavings] at hops
  rcases hops with h | h | h | h | h | h <;> subst h <;> decide

/-- Witness for C7: a fully sequential schedule of the duplicate-insert
race, with an arbitrary pre-existing row for the first conjunct. -/
theorem get_or_create_idempotent_check :
    get_or_create_user (some ⟨42, 7⟩) = .ok (⟨42, 7⟩, some ⟨42, 7⟩) ∧
      get_or_create_user none =
        .ok (⟨default_free_requests, 0⟩, some ⟨default_free_requests, 0⟩) ∧
      run_race [.insA, .insB, .selB, .selA] =
        ⟨some ⟨default_free_requests, 0⟩, some ⟨default_free_requests, 0⟩,
          some ⟨default_free_requests, 0⟩⟩ :=
  get_or_create_idempotent ⟨42, 7⟩ [.insA, .insB, .selB, .selA] (by decide)

/-- C8 failing input: a non-empty message whose `get_or_create_user` call
raises `DatabaseError`.  The `except DatabaseError` clause then reads
`processing_msg` before any assignment to it, so an `UnboundLocalError`
escapes the handler instead of the claimed single terminal outcome. -/
theorem ledger_error_escapes_handler :
    handle_text_message ("Привет") (some ⟨3, 0⟩) ⟨.ok ("x"), true, false, id⟩ =
      ⟨some ⟨3, 0⟩, .uncaught ("UnboundLocalError: processing_msg"), 1, 0, 0⟩ := by
  decide

/-- C9 counterexample: for a provider response with no choices, the error
that `generate_response` actually raises is not the distinct
empty-response classification constructed inside the `try` body. -/
theorem empty_response_not_classified_empty :
    generate_response (.ok ⟨[]⟩) ≠ .error ⟨"Empty response from OpenAI"⟩ := by
  decide

/-- C9 (amended): a provider response with no choices is always classified
as a failure, never a success — but as the catch-all "Internal service
error", because the internally raised empty-response `OpenAIError` is
swallowed by the final `except Exception` clause and re-raised
generically. -/
theorem empty_response_is_failure (resp : ProviderResponse) (h : resp.choices = []) :
    generate_response (.ok resp) = .error ⟨"Internal service error"⟩ := by
  obtain ⟨choices⟩ := resp
  cases choices with
  | nil => rfl
  | cons c cs => simp at h

/-- Witness for C9 (amended): the empty choice list. -/
theorem empty_response_is_failure_check :
    generate_response (.ok ⟨[]⟩) = .error ⟨"Internal service error"⟩ :=
  empty_response_is_failure ⟨[]⟩ rfl

/-- C10: a message that strips to the empty string yields the
empty-message warning with the row untouched (no account created) and
zero ledger reads, gateway calls, and debit calls. -/
theorem blank_message_no_side_effects (text : String) (db : Db) (env : EnvOracle)
    (h : py_strip text = "") :
    handle_text_message text db env = ⟨db, .emptyMessage, 0, 0, 0⟩ := by
  simp [handle_text_message, h]

/-- Witness for C10: a whitespace-only message from a never-seen user; no
account is created. -/
theorem blank_message_no_side_effects_check :
    handle_text_message ("   ") none ⟨.ok ("x"), false, false, id⟩ =
      ⟨none, .emptyMessage, 0, 0, 0⟩ :=
  blank_message_no_side_effects ("   ") none ⟨.ok ("x"), false, false, id⟩ (by decide)

end TelegramGPT
